import Mathlib

/-!
Verification development for the node-request-sender repository.

Shallow embedding of the three core components:
* the request-data encoder (`local_modules/request-data-encoder.js`),
* the event-listener dispatch and the request/repeat engine
  (`local_modules/request-sender.js`),
* the template/macro engine (`local_modules/syntax-processor.js`).

JavaScript idioms are made explicit: exceptions become explicit flags,
asynchronous response delivery becomes an explicit handler function, the
unbounded `while` scan of the template engine becomes a fuel-indexed
iteration, and `Math.random()` becomes an abstract draw stream carrying
exactly the facts true of `Math.floor(Math.random() * n)`.
-/

namespace NodeRequestSender

/-! ## Request data encoder (request-data-encoder.js) -/

/-- A JavaScript object with string keys and string values, in insertion
order (the only shape the encoder receives from the engine). -/
abbrev FieldMap := List (String × String)

/-- The apostrophe character (used as the string quote in the macro
language and excluded from `encodeURIComponent` escaping). -/
def quoteChar : Char := Char.ofNat 39

/-- Characters that `querystring.escape` (Node's `encodeURIComponent`
variant) leaves unescaped: `[A-Za-z0-9-_.!~*'()]`. -/
def qsUnreserved (c : Char) : Bool :=
  c.isAlpha || c.isDigit || c = '-' || c = '_' || c = '.' || c = '!' ||
  c = '~' || c = '*' || c = quoteChar || c = '(' || c = ')'

/-- UTF-8 encoded length of one character (as `Buffer.byteLength` counts it). -/
def utf8Len (c : Char) : Nat :=
  if c.toNat < 0x80 then 1
  else if c.toNat < 0x800 then 2
  else if c.toNat < 0x10000 then 3
  else 4

/-- Source `Buffer.byteLength(s)`: UTF-8 byte length of a string. -/
def byteLength (s : String) : Nat :=
  s.data.foldl (fun n c => n + utf8Len c) 0

/-- UTF-8 bytes of one character, for percent-escaping. -/
def utf8Bytes (c : Char) : List Nat :=
  let n := c.toNat
  if n < 0x80 then [n]
  else if n < 0x800 then [0xC0 + n / 64, 0x80 + n % 64]
  else if n < 0x10000 then
    [0xE0 + n / 4096, 0x80 + n / 64 % 64, 0x80 + n % 64]
  else
    [0xF0 + n / 262144, 0x80 + n / 4096 % 64, 0x80 + n / 64 % 64, 0x80 + n % 64]

/-- Upper-case hexadecimal digit. -/
def hexDigit (n : Nat) : Char :=
  if n < 10 then Char.ofNat (48 + n) else Char.ofNat (55 + n)

/-- Source `%XX` escape of one byte. -/
def percentByte (b : Nat) : String :=
  "%" ++ String.singleton (hexDigit (b / 16)) ++ String.singleton (hexDigit (b % 16))

/-- Source `querystring.escape`: keep unreserved characters, percent-encode the
UTF-8 bytes of everything else. -/
def qsEscape (s : String) : String :=
  s.data.foldl
    (fun acc c =>
      if qsUnreserved c then acc ++ String.singleton c
      else acc ++ String.join ((utf8Bytes c).map percentByte))
    ""

/-- Source `querystring.stringify`: `k=v` pairs joined with `&`, both sides
escaped, in insertion order. -/
def querystringStringify (data : FieldMap) : String :=
  String.intercalate "&" (data.map (fun p => qsEscape p.1 ++ "=" ++ qsEscape p.2))

/-- JSON string escaping for the characters `JSON.stringify` escapes in
string literals. -/
def jsonEscapeChar (c : Char) : String :=
  if c = '"' then "\\\""
  else if c = '\\' then "\\\\"
  else if c = '\n' then "\\n"
  else if c = '\r' then "\\r"
  else if c = '\t' then "\\t"
  else if c.toNat < 0x20 then
    "\\u00" ++ String.singleton (hexDigit (c.toNat / 16)) ++
      String.singleton (hexDigit (c.toNat % 16))
  else String.singleton c

/-- Escape the characters of a string for a JSON string literal. -/
def jsonEscape (s : String) : String :=
  s.data.foldl (fun acc c => acc ++ jsonEscapeChar c) ""

/-- Source `JSON.stringify` of a flat string-to-string object. -/
def jsonStringify (data : FieldMap) : String :=
  "\x7b" ++
    String.intercalate ","
      (data.map (fun p => "\"" ++ jsonEscape p.1 ++ "\":\"" ++ jsonEscape p.2 ++ "\"")) ++
  "\x7d"

/-- The `text` encoder: value of the reserved `text` key, or empty string
when it is absent (`data.hasOwnProperty('text')` check in the source). -/
def textEncode (data : FieldMap) : String :=
  match data.lookup "text" with
  | some v => v
  | none => ""

/-- The encoder registry: `encoders.hasOwnProperty(type)` lookup giving
the `encode` callback of the named encoder. -/
def encoderCallback (ty : String) : Option (FieldMap → String) :=
  if ty = "querystring" then some querystringStringify
  else if ty = "json" then some jsonStringify
  else if ty = "text" then some textEncode
  else none

/-- Source `encoderExists` from the source. -/
def encoderExists (ty : String) : Bool :=
  (encoderCallback ty).isSome

/-- Source `encode(type, data)` from the source: dispatch to the registered
encoder, or return the empty string when the encoder does not exist. -/
def encode (ty : String) (data : FieldMap) : String :=
  match encoderCallback ty with
  | some f => f data
  | none => ""

/-! ## Event listeners (request-sender.js lines 51-70) -/

/-- One registered listener.  The callback itself is opaque JavaScript; we
record its identity and whether invoking it throws, which is all the
dispatch logic can observe. -/
structure Listener where
  message : String
  throws : Bool
  id : Nat
deriving DecidableEq

/-- Source `addEventListener`: push onto the listener array. -/
def addEventListener (ls : List Listener) (l : Listener) : List Listener :=
  ls ++ [l]

/-- Source `callListeners`: `_.each` over the listener array, invoking every
entry whose message matches.  There is no try/catch: an exception thrown
by a callback propagates out of `_.each`, so iteration stops at the first
throwing listener.  Returns the ids invoked (in order) and whether an
exception escaped. -/
def callListeners : List Listener → String → List Nat × Bool
  | [], _ => ([], false)
  | e :: rest, msg =>
    if e.message = msg then
      if e.throws then ([e.id], true)
      else
        let r := callListeners rest msg
        (e.id :: r.1, r.2)
    else callListeners rest msg

/-- The listeners registered for a given message, in registration order. -/
def matchingListeners (ls : List Listener) (msg : String) : List Listener :=
  ls.filter (fun e => e.message = msg)

/-- Spec-side description used by the amended claim C6: invocation stops
at (and includes) the first throwing matching listener. -/
def dispatchSpec : List Listener → List Nat × Bool
  | [] => ([], false)
  | e :: rest =>
    if e.throws then ([e.id], true)
    else
      let r := dispatchSpec rest
      (e.id :: r.1, r.2)

theorem callListeners_eq_dispatchSpec (ls : List Listener) (msg : String) :
    callListeners ls msg = dispatchSpec (matchingListeners ls msg) := by
  induction ls with
  | nil => rfl
  | cons e rest ih =>
    by_cases h : e.message = msg
    · by_cases ht : e.throws
      · simp [callListeners, matchingListeners, h, ht, List.filter_cons, dispatchSpec]
      · simp only [callListeners, matchingListeners, h, ht, if_true, if_false,
          List.filter_cons, decide_eq_true_eq] at ih ⊢
        simp [dispatchSpec, ht, ih, matchingListeners]
    · simp [callListeners, matchingListeners, h, List.filter_cons] at ih ⊢
      exact ih

theorem dispatchSpec_no_throw (ms : List Listener)
    (h : ∀ e ∈ ms, e.throws = false) :
    dispatchSpec ms = (ms.map Listener.id, false) := by
  induction ms with
  | nil => rfl
  | cons e rest ih =>
    have he : e.throws = false := h e (List.mem_cons_self e rest)
    have hr := ih (fun x hx => h x (List.mem_cons_of_mem e hx))
    simp [dispatchSpec, he, hr]

/-- When no matching listener throws, every matching listener is invoked,
in registration order, and no exception escapes. -/
theorem callListeners_no_throw (ls : List Listener) (msg : String)
    (h : ∀ e ∈ matchingListeners ls msg, e.throws = false) :
    callListeners ls msg = ((matchingListeners ls msg).map Listener.id, false) := by
  rw [callListeners_eq_dispatchSpec]
  exact dispatchSpec_no_throw _ h

/-! ## Request/repeat engine (request-sender.js)

State fields mirror the closure variables of the `RequestSender`
constructor.  `intervalID` is modelled by two booleans: `intervalIDSet`
(whether `intervalID !== null`; the source never resets it to `null`) and
`intervalActive` (whether the interval created by `setInterval` is still
scheduled, i.e. `clearInterval` has not been called on it). -/

/-- A JavaScript header value: the configured headers are strings, the
computed `Content-Length` is a number. -/
inductive HVal where
  | str (s : String)
  | num (n : Nat)
deriving DecidableEq

/-- The `requestOptions` object.  `followAllRedirects` and `maxRedirects`
are absent from the initial object and only appear once `_.merge` inside
`sendRequest` adds them, hence `Option`. -/
structure RequestOptions where
  host : String
  method : String
  port : Nat
  path : String
  headers : List (String × HVal)
  followAllRedirects : Option Bool
  maxRedirects : Option Nat
deriving DecidableEq

/-- Initial `requestOptions` (source lines 37-43). -/
def defaultRequestOptions : RequestOptions :=
  { host := "", method := "GET", port := 80, path := "/", headers := []
    followAllRedirects := none, maxRedirects := none }

/-- The engine's mutable closure state (source lines 21-43). -/
structure EngineState where
  lockRequests : Bool
  intervalIDSet : Bool
  intervalActive : Bool
  successCount : Nat
  failCount : Nat
  isRepeating : Bool
  ignoreErrors : Bool
  ignoreTimeout : Bool
  requestTimeout : Nat
  dataEncoderType : String
  followRedirects : Bool
  maxRedirects : Nat
  requestData : FieldMap
  requestOptions : RequestOptions
deriving DecidableEq

/-- Initial engine state (source lines 21-43). -/
def initEngine : EngineState :=
  { lockRequests := false, intervalIDSet := false, intervalActive := false
    successCount := 0, failCount := 0, isRepeating := false
    ignoreErrors := false, ignoreTimeout := true, requestTimeout := 5000
    dataEncoderType := "querystring", followRedirects := true
    maxRedirects := 10, requestData := [], requestOptions := defaultRequestOptions }

/-- Events emitted through `callListeners`, carrying snapshots of the
payloads at emission time (the response is represented by its status
code, the only part of it the engine inspects). -/
inductive Event where
  | requestStart (data : FieldMap) (opts : RequestOptions)
  | requestSuccess (data : FieldMap) (status : Nat) (opts : RequestOptions)
  | requestFail (data : FieldMap) (status : Nat) (opts : RequestOptions)
  | requestError (opts : RequestOptions)
  | repeaterStart (interval count : Nat)
  | repeaterStop (success fail : Nat)
deriving DecidableEq

/-- Source `HTTP_ERROR_CODES` (source lines 16-19). -/
def HTTP_ERROR_CODES : List Nat :=
  [400, 401, 403, 404, 405, 500, 502, 503, 504]

/-- Source `_.indexOf` with a running index, returning -1 when absent. -/
def jsIndexOfAux (l : List Nat) (x : Nat) (i : Int) : Int :=
  match l with
  | [] => -1
  | y :: rest => if y = x then i else jsIndexOfAux rest x (i + 1)

/-- Source `_.indexOf(arr, x)`. -/
def jsIndexOf (l : List Nat) (x : Nat) : Int :=
  jsIndexOfAux l x 0

theorem jsIndexOfAux_ne_neg_one (l : List Nat) (x : Nat) :
    ∀ i : Int, 0 ≤ i → (jsIndexOfAux l x i ≠ -1 ↔ x ∈ l) := by
  induction l with
  | nil => intro i _; simp [jsIndexOfAux]
  | cons y rest ih =>
    intro i hi
    rcases eq_or_ne y x with h | h
    · subst h
      rw [show jsIndexOfAux (y :: rest) y i = i by simp [jsIndexOfAux]]
      constructor
      · intro _; exact List.mem_cons_self y rest
      · intro _; omega
    · rw [show jsIndexOfAux (y :: rest) x i = jsIndexOfAux rest x (i + 1) by
        simp [jsIndexOfAux, h]]
      rw [ih (i + 1) (by omega), List.mem_cons]
      constructor
      · intro hx; exact Or.inr hx
      · intro hx
        rcases hx with hx | hx
        · exact absurd hx.symm h
        · exact hx

/-- The condition `_.indexOf(HTTP_ERROR_CODES, status) !== -1` is exactly
membership in the error-code list. -/
theorem jsIndexOf_mem (l : List Nat) (x : Nat) :
    jsIndexOf l x ≠ -1 ↔ x ∈ l :=
  jsIndexOfAux_ne_neg_one l x 0 (by omega)

/-- JavaScript object update: overwrite the value of an existing key in
place, or append a fresh key at the end (this is how the deep `_.merge`
acts on the `headers` sub-object). -/
def setHeader (hs : List (String × HVal)) (k : String) (v : HVal) :
    List (String × HVal) :=
  if hs.any (fun p => p.1 = k) then
    hs.map (fun p => if p.1 = k then (k, v) else p)
  else hs ++ [(k, v)]

/-- The request body computed by `sendRequest`: empty unless the data map
has keys, otherwise the active encoder's output (source lines 281-288). -/
def writeDataOf (s : EngineState) (data : FieldMap) : String :=
  if data.length > 0 then encode s.dataEncoderType data else ""

/-- The result of `_.merge(requestOptions, {followAllRedirects, maxRedirects,
headers: {"Content-Length": ...}})` (source lines 290-299).  Because lodash
`_.merge` mutates its first argument, this is also the new stored
`requestOptions`. -/
def mergedOptions (s : EngineState) (data : FieldMap) : RequestOptions :=
  { s.requestOptions with
    followAllRedirects := some s.followRedirects
    maxRedirects := some s.maxRedirects
    headers := setHeader s.requestOptions.headers "Content-Length"
      (HVal.num (byteLength (writeDataOf s data))) }

/-- The HTTP request handed to `http.request`. -/
structure IssuedRequest where
  options : RequestOptions
  body : String
deriving DecidableEq

/-- Source `sendRequest(data)` up to the point where the request is handed to
`http.request` (source lines 273-301, 320-349): a held lock makes the call
a silent no-op; otherwise the lock is taken, `request-start` is emitted
with the (pre-merge) stored options, the body is encoded, and the merged
options are both sent and — because `_.merge` mutates `requestOptions` —
stored back into the engine. -/
def sendRequest (s : EngineState) (data : FieldMap) :
    EngineState × List Event × Option IssuedRequest :=
  if s.lockRequests then (s, [], none)
  else
    ({ s with lockRequests := true, requestOptions := mergedOptions s data },
     [Event.requestStart data s.requestOptions],
     some ⟨mergedOptions s data, writeDataOf s data⟩)

/-- Source `stopRepeater` (source lines 406-417): guarded by `intervalID !== null`
(not by `isRepeating`); emits `repeater-stop` with the counters at call
time, then zeroes both counters.  `clearInterval` unschedules the ticks
but `intervalID` itself is never set back to `null`. -/
def stopRepeater (s : EngineState) : EngineState × List Event :=
  if s.intervalIDSet then
    ({ s with isRepeating := false, intervalActive := false
              successCount := 0, failCount := 0 },
     [Event.repeaterStop s.successCount s.failCount])
  else (s, [])

/-- The `http.request` response callback (source lines 303-317): classify
the status by `_.indexOf(HTTP_ERROR_CODES, statusCode) !== -1`; on failure
increment `failCount`, emit `request-fail`, and stop the repeater when
repeating and not ignoring errors; otherwise increment `successCount` and
emit `request-success`; finally release the lock. -/
def handleResponse (s : EngineState) (data : FieldMap) (status : Nat) :
    EngineState × List Event :=
  if jsIndexOf HTTP_ERROR_CODES status ≠ -1 then
    let s1 := { s with failCount := s.failCount + 1 }
    let stopped :=
      if s1.isRepeating && !s1.ignoreErrors then stopRepeater s1 else (s1, [])
    ({ stopped.1 with lockRequests := false },
     Event.requestFail data status s1.requestOptions :: stopped.2)
  else
    let s1 := { s with successCount := s.successCount + 1 }
    ({ s1 with lockRequests := false },
     [Event.requestSuccess data status s1.requestOptions])

/-- One complete send/response cycle: dispatch `sendRequest` and, when a
request was actually issued, deliver its response with the given status. -/
def sendRequestResolve (s : EngineState) (data : FieldMap) (status : Nat) :
    EngineState × List Event :=
  match sendRequest s data with
  | (s1, evs, some _) =>
    let r := handleResponse s1 data status
    (r.1, evs ++ r.2)
  | (s1, evs, none) => (s1, evs)

/-- Source `autoSendRequest` (source lines 356-368) checks the lock, materializes
the payload by running the template engine over `requestData`, and calls
`sendRequest`.  Template expansion is modelled separately (its scan loop
need not terminate, see the syntax-processor section), so the materialized
fields are a parameter here. -/
def autoSendRequest (s : EngineState) (mat : FieldMap) :
    EngineState × List Event × Option IssuedRequest :=
  if s.lockRequests then (s, [], none)
  else sendRequest s mat

/-- The repeater's per-run state: the engine plus the `requestCount` and
`count` variables captured by the `setInterval` closure
(source lines 376-398). -/
structure RepeaterRun where
  engine : EngineState
  requestCount : Nat
  count : Nat
deriving DecidableEq

/-- Source `startRepeater(rInterval, count)` (source lines 376-401): set
`isRepeating`, zero the closure's `requestCount`, store the interval id,
and emit `repeater-start`. -/
def startRepeater (s : EngineState) (rInterval count : Nat) :
    RepeaterRun × List Event :=
  (⟨{ s with isRepeating := true, intervalIDSet := true, intervalActive := true },
    0, count⟩,
   [Event.repeaterStart rInterval count])

/-- One firing of the `setInterval` callback (source lines 381-396): a
held lock skips the tick entirely; with a bounded count, dispatch while
`requestCount < count` and stop the repeater otherwise; with count 0,
dispatch unconditionally. -/
def repeaterTick (r : RepeaterRun) (mat : FieldMap) :
    RepeaterRun × List Event × Option IssuedRequest :=
  if r.engine.lockRequests then (r, [], none)
  else if r.count > 0 then
    if r.requestCount < r.count then
      let a := autoSendRequest r.engine mat
      (⟨a.1, r.requestCount + 1, r.count⟩, a.2.1, a.2.2)
    else
      let st := stopRepeater r.engine
      (⟨st.1, r.requestCount, r.count⟩, st.2, none)
  else
    let a := autoSendRequest r.engine mat
    (⟨a.1, r.requestCount, r.count⟩, a.2.1, a.2.2)

/-- A tick under the assumption that any request it dispatched resolves
(with the given status) before the next tick fires. -/
def tickResolve (r : RepeaterRun) (mat : FieldMap) (status : Nat) :
    RepeaterRun × List Event :=
  match repeaterTick r mat with
  | (r1, evs, some _) =>
    let h := handleResponse r1.engine mat status
    (⟨h.1, r1.requestCount, r1.count⟩, evs ++ h.2)
  | (r1, evs, none) => (r1, evs)

/-- Run `n` resolved ticks, accumulating the emitted events. -/
def runTicks (mat : FieldMap) (status : Nat) : Nat → RepeaterRun → RepeaterRun × List Event
  | 0, r => (r, [])
  | n + 1, r =>
    let t := tickResolve r mat status
    let rest := runTicks mat status n t.1
    (rest.1, t.2 ++ rest.2)

/-- Recognizer for `request-start` events. -/
def isRequestStart : Event → Bool
  | Event.requestStart _ _ => true
  | _ => false

/-- Recognizer for `repeater-stop` events. -/
def isRepeaterStop : Event → Bool
  | Event.repeaterStop _ _ => true
  | _ => false

/-! ## Claims C9, C6, C2, C4, C8 -/

/-- Claim C9: for every fields mapping and every format name that is not
one of the recognized formats (querystring, json, text), `encode` returns
the empty string; it is a pure function, so no error is signalled and no
state changes. -/
theorem C9_unknown_encoder_empty (ty : String) (data : FieldMap)
    (h1 : ty ≠ "querystring") (h2 : ty ≠ "json") (h3 : ty ≠ "text") :
    encode ty data = "" ∧ encoderExists ty = false := by
  simp [encode, encoderExists, encoderCallback, h1, h2, h3]

theorem C9_unknown_encoder_empty_witness :
    ("xml" ≠ "querystring" ∧ "xml" ≠ "json" ∧ "xml" ≠ "text") ∧
      encode "xml" [("a", "1")] = "" ∧ encoderExists "xml" = false :=
  ⟨⟨by decide, by decide, by decide⟩,
   C9_unknown_encoder_empty "xml" [("a", "1")] (by decide) (by decide) (by decide)⟩

/-- Two listeners registered (in this order) for the same event name, the
first of which throws when invoked. -/
def exListeners : List Listener :=
  addEventListener (addEventListener [] ⟨"request-start", true, 0⟩)
    ⟨"request-start", false, 1⟩

/-- Claim C6 counterexample: with two listeners registered for the event
and the first one throwing, only the first listener is invoked — the
exception escapes `callListeners` and the second listener never runs, so
an error in one listener does prevent the remaining ones. -/
theorem C6_counterexample :
    (callListeners exListeners "request-start").1 = [0] ∧
    (1 : Nat) ∉ (callListeners exListeners "request-start").1 ∧
    (callListeners exListeners "request-start").2 = true := by decide

/-- Claim C6 (amended): listeners registered for the emitted event name
are invoked in registration order, but only up to (and including) the
first listener that throws; the thrown error aborts dispatch to the
remaining listeners.  In particular, when no matching listener throws,
all of them are invoked in registration order. -/
theorem C6_amended_dispatch (ls : List Listener) (msg : String) :
    callListeners ls msg = dispatchSpec (matchingListeners ls msg) ∧
    ((∀ e ∈ matchingListeners ls msg, e.throws = false) →
      callListeners ls msg = ((matchingListeners ls msg).map Listener.id, false)) :=
  ⟨callListeners_eq_dispatchSpec ls msg, callListeners_no_throw ls msg⟩

theorem C6_amended_dispatch_witness :
    callListeners exListeners "request-start" =
      dispatchSpec (matchingListeners exListeners "request-start") ∧
    ((∀ e ∈ matchingListeners exListeners "request-start", e.throws = false) →
      callListeners exListeners "request-start" =
        ((matchingListeners exListeners "request-start").map Listener.id, false)) :=
  C6_amended_dispatch exListeners "request-start"

/-- Claim C2: while the in-flight lock is held, `sendRequest` (and the
`autoSendRequest` wrapper behind `sendOnce`) performs no observable
action: no event, no state change, no request issued. -/
theorem C2_locked_send_noop (s : EngineState) (data : FieldMap)
    (h : s.lockRequests = true) :
    sendRequest s data = (s, [], none) ∧ autoSendRequest s data = (s, [], none) := by
  constructor <;> simp [sendRequest, autoSendRequest, h]

/-- The initial engine with the in-flight lock held. -/
def lockedEngine : EngineState :=
  { initEngine with lockRequests := true }

theorem C2_locked_send_noop_witness :
    lockedEngine.lockRequests = true ∧
    sendRequest lockedEngine [("a", "1")] = (lockedEngine, [], none) ∧
    autoSendRequest lockedEngine [("a", "1")] = (lockedEngine, [], none) :=
  ⟨rfl, C2_locked_send_noop lockedEngine [("a", "1")] rfl⟩

/-- The engine after `startRepeater(1000, 0)` followed by `stopRepeater()`:
`isRepeating` is false again but `intervalID` is still non-null. -/
def stoppedEngine : EngineState :=
  (stopRepeater (startRepeater initEngine 1000 0).1.engine).1

/-- Source `stoppedEngine` after one further completed request with status 200
(sent while not repeating), so `successCount = 1`. -/
def stoppedEngineAfterSuccess : EngineState :=
  (sendRequestResolve stoppedEngine [] 200).1

/-- Claim C4 counterexample: a reachable state (start, stop, then one
successful single-shot request) in which the repeater is not running, yet
`stopRepeater` emits a `repeater-stop` event and changes the state
(resetting `successCount`), because its guard tests `intervalID !== null`
— which is never reset — instead of `isRepeating`. -/
theorem C4_counterexample :
    stoppedEngineAfterSuccess.isRepeating = false ∧
    (stopRepeater stoppedEngineAfterSuccess).2 = [Event.repeaterStop 1 0] ∧
    (stopRepeater stoppedEngineAfterSuccess).1 ≠ stoppedEngineAfterSuccess := by
  decide

/-- Claim C4 (amended): `stopRepeater` is a no-op (no event, no state
change) exactly in the states where no repeater has ever been started
(`intervalID` still null).  Once a repeater has been started, every
`stopRepeater` call — even with `Repeating = false` after a previous
start/stop cycle — emits `repeater-stop` with the current counters and
resets them. -/
theorem C4_amended_stop (s : EngineState) :
    (s.intervalIDSet = false → stopRepeater s = (s, [])) ∧
    (s.intervalIDSet = true →
      stopRepeater s =
        ({ s with isRepeating := false, intervalActive := false,
                  successCount := 0, failCount := 0 },
         [Event.repeaterStop s.successCount s.failCount])) := by
  constructor <;> intro h <;> simp [stopRepeater, h]

theorem C4_amended_stop_witness :
    initEngine.intervalIDSet = false ∧ stopRepeater initEngine = (initEngine, []) :=
  ⟨rfl, (C4_amended_stop initEngine).1 rfl⟩

/-- Claim C8 counterexample: sending from the initial configuration
permanently rewrites the stored `requestOptions`: lodash `_.merge` mutates
its first argument, so after `sendRequest` the stored options carry the
computed `Content-Length` header and the redirect settings. -/
theorem C8_counterexample :
    initEngine.lockRequests = false ∧
    (sendRequest initEngine []).1.requestOptions ≠ initEngine.requestOptions ∧
    (sendRequest initEngine []).1.requestOptions.headers =
      [("Content-Length", HVal.num 0)] ∧
    (sendRequest initEngine []).1.requestOptions.followAllRedirects = some true := by
  decide

theorem setHeader_other_mem (hs : List (String × HVal)) (key : String) (v : HVal)
    (k : String) (w : HVal) (hk : k ≠ key) :
    (k, w) ∈ hs ↔ (k, w) ∈ setHeader hs key v := by
  unfold setHeader
  by_cases hany : hs.any (fun p => p.1 = key) = true
  · rw [if_pos hany]
    constructor
    · intro hm
      have he : (if (k, w).1 = key then (key, v) else (k, w)) = (k, w) := by
        simp [hk]
      exact he ▸ List.mem_map_of_mem _ hm
    · intro hm
      rcases List.mem_map.mp hm with ⟨p, hp, hpe⟩
      by_cases hpk : p.1 = key
      · rw [if_pos hpk] at hpe
        exact absurd (congrArg Prod.fst hpe).symm hk
      · rw [if_neg hpk] at hpe
        exact hpe ▸ hp
  · rw [if_neg hany, List.mem_append, List.mem_singleton]
    constructor
    · exact Or.inl
    · rintro (hm | hm)
      · exact hm
      · exact absurd (congrArg Prod.fst hm) hk

/-- Claim C8 (amended): an unlocked `sendRequest` leaves `host`, `method`,
`port`, `path` and every header other than `Content-Length` untouched,
but — because `_.merge(requestOptions, ...)` mutates the stored object —
it adds `followAllRedirects`, `maxRedirects` and the computed
`Content-Length` header to the stored configuration as a side effect of
sending. -/
theorem C8_amended_send_merge (s : EngineState) (data : FieldMap)
    (h : s.lockRequests = false) :
    (sendRequest s data).1.requestOptions.host = s.requestOptions.host ∧
    (sendRequest s data).1.requestOptions.method = s.requestOptions.method ∧
    (sendRequest s data).1.requestOptions.port = s.requestOptions.port ∧
    (sendRequest s data).1.requestOptions.path = s.requestOptions.path ∧
    (sendRequest s data).1.requestOptions.followAllRedirects = some s.followRedirects ∧
    (sendRequest s data).1.requestOptions.maxRedirects = some s.maxRedirects ∧
    (sendRequest s data).1.requestOptions.headers =
      setHeader s.requestOptions.headers "Content-Length"
        (HVal.num (byteLength (writeDataOf s data))) ∧
    (∀ k w, k ≠ "Content-Length" →
      ((k, w) ∈ s.requestOptions.headers ↔
        (k, w) ∈ (sendRequest s data).1.requestOptions.headers)) := by
  have hsend : sendRequest s data =
      ({ s with lockRequests := true, requestOptions := mergedOptions s data },
       [Event.requestStart data s.requestOptions],
       some ⟨mergedOptions s data, writeDataOf s data⟩) := by
    simp [sendRequest, h]
  rw [hsend]
  refine ⟨rfl, rfl, rfl, rfl, rfl, rfl, rfl, ?_⟩
  intro k w hk
  exact setHeader_other_mem s.requestOptions.headers "Content-Length" _ k w hk

theorem C8_amended_send_merge_witness :
    initEngine.lockRequests = false ∧
    (sendRequest initEngine []).1.requestOptions.host = initEngine.requestOptions.host ∧
    (sendRequest initEngine []).1.requestOptions.followAllRedirects = some true :=
  ⟨rfl, (C8_amended_send_merge initEngine [] rfl).1,
    (C8_amended_send_merge initEngine [] rfl).2.2.2.2.1⟩

/-! ## Claim C1 -/

/-- The engine right after `startRepeater(1000, 0)` on a fresh instance:
repeating, not ignoring errors, counters zero. -/
def repeatingEngine : EngineState :=
  (startRepeater initEngine 1000 0).1.engine

/-- Claim C1 counterexample: in the reachable state where the repeater is
running and `ignoreErrors` is false (its default), a completed response
with status 404 emits `request-fail` but does NOT leave `failCount`
incremented by one: the failure immediately stops the repeater, which
resets both counters, so `failCount` is 0 again (= its old value) after
the handler runs. -/
theorem C1_counterexample :
    repeatingEngine.isRepeating = true ∧
    repeatingEngine.ignoreErrors = false ∧
    repeatingEngine.failCount = 0 ∧
    Event.requestFail [] 404 (mergedOptions repeatingEngine []) ∈
      (sendRequestResolve repeatingEngine [] 404).2 ∧
    (sendRequestResolve repeatingEngine [] 404).1.failCount = 0 := by
  decide

/-- Claim C1 (amended): the response handler classifies a status exactly
by membership in `HTTP_ERROR_CODES` (`_.indexOf(...) !== -1`, not
`status < 400`).  A status in the set emits `request-fail` first and
increments `failCount`; the incremented value survives in the final state
unless the engine was repeating with `ignoreErrors` unset, in which case
the repeater auto-stop emits `repeater-stop` reporting the incremented
`failCount` and then resets both counters to zero.  Every other status
(301, unlisted 4xx/5xx, ...) increments `successCount` by one and emits
`request-success`. -/
theorem C1_amended_classification (s : EngineState) (data : FieldMap) (status : Nat) :
    (jsIndexOf HTTP_ERROR_CODES status ≠ -1 ↔ status ∈ HTTP_ERROR_CODES) ∧
    (status ∈ HTTP_ERROR_CODES →
      (handleResponse s data status).2.head? =
        some (Event.requestFail data status s.requestOptions) ∧
      (¬(s.isRepeating = true ∧ s.ignoreErrors = false) →
        handleResponse s data status =
          ({ s with failCount := s.failCount + 1, lockRequests := false },
           [Event.requestFail data status s.requestOptions])) ∧
      (s.isRepeating = true ∧ s.ignoreErrors = false ∧ s.intervalIDSet = true →
        handleResponse s data status =
          ({ s with failCount := 0, successCount := 0, isRepeating := false,
                    intervalActive := false, lockRequests := false },
           [Event.requestFail data status s.requestOptions,
            Event.repeaterStop s.successCount (s.failCount + 1)]))) ∧
    (status ∉ HTTP_ERROR_CODES →
      handleResponse s data status =
        ({ s with successCount := s.successCount + 1, lockRequests := false },
         [Event.requestSuccess data status s.requestOptions])) := by
  refine ⟨jsIndexOf_mem _ _, ?_, ?_⟩
  · intro hmem
    have hcond : jsIndexOf HTTP_ERROR_CODES status ≠ -1 :=
      (jsIndexOf_mem _ _).mpr hmem
    refine ⟨?_, ?_, ?_⟩
    · simp [handleResponse, hcond]
    · intro hnot
      have hb : (s.isRepeating && !s.ignoreErrors) = false := by
        cases hrep : s.isRepeating <;> cases hige : s.ignoreErrors <;>
          simp_all
      simp [handleResponse, hcond, hb]
    · rintro ⟨hrep, hige, hint⟩
      have hb : (s.isRepeating && !s.ignoreErrors) = true := by
        simp [hrep, hige]
      simp [handleResponse, hcond, hb, stopRepeater, hint]
  · intro hmem
    have hcond : ¬(jsIndexOf HTTP_ERROR_CODES status ≠ -1) := by
      rw [jsIndexOf_mem]; exact hmem
    simp [handleResponse, hcond]

theorem C1_amended_classification_witness :
    handleResponse initEngine [] 404 =
      ({ initEngine with failCount := 1, lockRequests := false },
       [Event.requestFail [] 404 initEngine.requestOptions]) ∧
    handleResponse initEngine [] 301 =
      ({ initEngine with successCount := 1, lockRequests := false },
       [Event.requestSuccess [] 301 initEngine.requestOptions]) ∧
    handleResponse initEngine [] 402 =
      ({ initEngine with successCount := 1, lockRequests := false },
       [Event.requestSuccess [] 402 initEngine.requestOptions]) :=
  ⟨((C1_amended_classification initEngine [] 404).2.1 (by decide)).2.1 (by decide),
   (C1_amended_classification initEngine [] 301).2.2 (by decide),
   (C1_amended_classification initEngine [] 402).2.2 (by decide)⟩

/-! ## Claim C3 -/

theorem jsIndexOf_200 : jsIndexOf HTTP_ERROR_CODES 200 = -1 := by decide

/-- A complete successful cycle: unlocked `sendRequest` followed by a 200
response increments `successCount`, releases the lock, stores the merged
options, and emits `request-start` then `request-success`. -/
theorem sendRequestResolve_200 (s : EngineState) (mat : FieldMap)
    (h : s.lockRequests = false) :
    sendRequestResolve s mat 200 =
      ({ s with successCount := s.successCount + 1, lockRequests := false,
                requestOptions := mergedOptions s mat },
       [Event.requestStart mat s.requestOptions,
        Event.requestSuccess mat 200 (mergedOptions s mat)]) := by
  simp [sendRequestResolve, sendRequest, h, handleResponse, jsIndexOf_200]

/-- A dispatching tick (lock free, bounded count not yet reached) that
resolves with 200: it performs one full request cycle and advances
`requestCount`. -/
theorem tickResolve_dispatch (r : RepeaterRun) (mat : FieldMap)
    (h : r.engine.lockRequests = false) (hc : 0 < r.count)
    (hlt : r.requestCount < r.count) :
    tickResolve r mat 200 =
      (⟨(sendRequestResolve r.engine mat 200).1, r.requestCount + 1, r.count⟩,
       (sendRequestResolve r.engine mat 200).2) := by
  simp [tickResolve, repeaterTick, autoSendRequest, h, hc, hlt,
    sendRequestResolve, sendRequest, handleResponse, jsIndexOf_200]

/-- A tick whose bounded count is exhausted: it stops the repeater. -/
theorem tickResolve_stop (r : RepeaterRun) (mat : FieldMap)
    (h : r.engine.lockRequests = false) (hc : 0 < r.count)
    (hge : ¬ r.requestCount < r.count) :
    tickResolve r mat 200 =
      (⟨(stopRepeater r.engine).1, r.requestCount, r.count⟩,
       (stopRepeater r.engine).2) := by
  simp [tickResolve, repeaterTick, h, hc, hge]

/-- Claim C3: starting the repeater with repeatCount = 3 from a state with
zero counters and a free lock, with every dispatched request resolving
with status 200 before the next tick: within four ticks the run dispatches
exactly 3 requests, auto-stops, the single `repeater-stop` event reports
successCount = 3 and failCount = 0, and both counters are zero immediately
after; a tick that finds the lock held dispatches nothing and does not
advance `requestCount`. -/
theorem C3_repeat_three (s : EngineState) (mat : FieldMap) (interval : Nat)
    (hlock : s.lockRequests = false) (hs : s.successCount = 0)
    (hf : s.failCount = 0) :
    ((runTicks mat 200 4 (startRepeater s interval 3).1).2.filter
        isRequestStart).length = 3 ∧
    (runTicks mat 200 4 (startRepeater s interval 3).1).2.filter isRepeaterStop
        = [Event.repeaterStop 3 0] ∧
    (runTicks mat 200 4 (startRepeater s interval 3).1).1.engine.isRepeating = false ∧
    (runTicks mat 200 4 (startRepeater s interval 3).1).1.engine.intervalActive = false ∧
    (runTicks mat 200 4 (startRepeater s interval 3).1).1.engine.successCount = 0 ∧
    (runTicks mat 200 4 (startRepeater s interval 3).1).1.engine.failCount = 0 ∧
    (runTicks mat 200 4 (startRepeater s interval 3).1).1.requestCount = 3 ∧
    (startRepeater s interval 3).2 = [Event.repeaterStart interval 3] ∧
    (∀ r : RepeaterRun, r.engine.lockRequests = true →
      repeaterTick r mat = (r, [], none)) := by
  have hticks : ∀ r : RepeaterRun, r.engine.lockRequests = true →
      repeaterTick r mat = (r, [], none) := by
    intro r hr
    simp [repeaterTick, hr]
  refine ⟨?_, ?_, ?_, ?_, ?_, ?_, ?_, rfl, hticks⟩ <;>
    simp [runTicks, tickResolve_dispatch, tickResolve_stop, startRepeater,
      sendRequestResolve_200, stopRepeater, isRequestStart, isRepeaterStop,
      hlock, hs, hf, tickResolve, repeaterTick, autoSendRequest, sendRequest,
      handleResponse, jsIndexOf_200, List.filter_append]

theorem C3_repeat_three_witness :
    initEngine.lockRequests = false ∧ initEngine.successCount = 0 ∧
    initEngine.failCount = 0 ∧
    ((runTicks [] 200 4 (startRepeater initEngine 1000 3).1).2.filter
        isRequestStart).length = 3 :=
  ⟨rfl, rfl, rfl, (C3_repeat_three initEngine [] 1000 rfl rfl rfl).1⟩

/-! ## Template engine (syntax-processor.js)

`Math.random()` is modelled by an abstract stream of draws: `draw k n`
stands for the value of `Math.floor(Math.random() * n)` at the k-th call
to `Math.random()` in the run, together with exactly the facts that hold
of that expression for a real `r ∈ [0, 1)`. -/

/-- Abstract source of `Math.floor(Math.random() * n)` draws. -/
structure RandomSource where
  draw : Nat → Int → Int
  draw_nonneg : ∀ k n, 0 < n → 0 ≤ draw k n
  draw_lt : ∀ k n, 0 < n → draw k n < n
  draw_zero : ∀ k, draw k 0 = 0
  draw_neg : ∀ k n, n < 0 → n ≤ draw k n ∧ draw k n ≤ 0

/-- The all-zero draw stream (`Math.random()` returning 0 every time). -/
def rsZero : RandomSource where
  draw := fun _ _ => 0
  draw_nonneg := fun _ _ _ => le_refl 0
  draw_lt := fun _ _ h => h
  draw_zero := fun _ => rfl
  draw_neg := fun _ _ h => ⟨le_of_lt h, le_refl 0⟩

/-- Source `VALID_CHARS` (source line 13). -/
def VALID_CHARS : String := "abcdefghijklmnopqrstuvwxyz"

/-- Source `VALID_DIGITS` (source line 14). -/
def VALID_DIGITS : String := "1234567890"

/-- Source `VALID_MAILDOMAINS` (source lines 15-19). -/
def VALID_MAILDOMAINS : List String :=
  ["aol.com", "att.net", "comcast.net", "facebook.com", "gmail.com",
   "gmx.com", "googlemail.com", "google.com", "hotmail.com",
   "hotmail.co.uk", "mac.com", "me.com", "mail.com", "msn.com",
   "live.com", "sbcglobal.net", "verizon.net", "yahoo.com", "yahoo.co.uk"]

/-- Positional list access (the guts of JavaScript `arr[i]` for a
non-negative integer index). -/
def listNth {α : Type} : List α → Nat → Option α
  | [], _ => none
  | a :: _, 0 => some a
  | _ :: r, n + 1 => listNth r n

/-- JavaScript `arr[i]` with an integer index: out-of-range (including
negative) access yields `undefined`, modelled as `none`. -/
def jsArrGet {α : Type} (l : List α) (i : Int) : Option α :=
  if i < 0 then none else listNth l i.toNat

theorem listNth_mem {α : Type} : ∀ (l : List α) (n : Nat) (x : α),
    listNth l n = some x → x ∈ l := by
  intro l
  induction l with
  | nil => intro n x h; simp [listNth] at h
  | cons a r ih =>
    intro n x h
    match n with
    | 0 =>
      simp [listNth] at h
      exact h ▸ List.mem_cons_self a r
    | m + 1 =>
      exact List.mem_cons_of_mem a (ih m x h)

theorem listNth_lt_isSome {α : Type} : ∀ (l : List α) (n : Nat),
    n < l.length → ∃ x, listNth l n = some x := by
  intro l
  induction l with
  | nil => intro n h; simp at h
  | cons a r ih =>
    intro n h
    match n with
    | 0 => exact ⟨a, rfl⟩
    | m + 1 =>
      exact ih m (by simpa using h)

/-- Source `getRandomElement(arr)` for a string argument (`arr.length` is the
character count, `arr[i]` a one-character string): in-range access gives
that character, out-of-range gives `undefined`, which JavaScript string
concatenation renders as `"undefined"`. -/
def getRandomElementChars (rs : RandomSource) (k : Nat) (s : String) : String :=
  match jsArrGet s.data (rs.draw k (s.length : Int)) with
  | some c => String.singleton c
  | none => "undefined"

/-- Source `getRandomElement(arr)` for a list argument. -/
def getRandomElementList {α : Type} (rs : RandomSource) (k : Nat) (l : List α) :
    Option α :=
  jsArrGet l (rs.draw k (l.length : Int))

/-- Source `getRandomLength(min, max) = min + Math.floor(Math.random() * (max - min))`
(source lines 121-123). -/
def getRandomLength (rs : RandomSource) (k : Nat) (mi ma : Int) : Int :=
  mi + rs.draw k (ma - mi)

/-- The `result += getRandomElement(alphabet)` loop shared by the `str`
and `num` callbacks, running for `n` iterations with draws
`base, base+1, ...`. -/
def buildRandom (rs : RandomSource) (alphabet : String) (base : Nat) :
    Nat → String
  | 0 => ""
  | n + 1 => buildRandom rs alphabet base n ++
      getRandomElementChars rs (base + n) alphabet

/-- A parsed macro argument: a quoted string with the quotes stripped, or
a bare digit sequence coerced by `Number(...)`. -/
inductive JSArg where
  | str (s : String)
  | num (n : Nat)
deriving DecidableEq

/-- A JavaScript value as observed by `processSyntax`: the `null` failure
marker, `undefined`, a string, or a number. -/
inductive JSValue where
  | undef
  | jsNull
  | str (s : String)
  | num (n : Nat)
deriving DecidableEq

/-- JavaScript string coercion as applied by the `+` in `replaceRange`. -/
def jsToString : JSValue → String
  | JSValue.undef => "undefined"
  | JSValue.jsNull => "null"
  | JSValue.str s => s
  | JSValue.num n => toString n

/-- The common body of the `str` and `num` extension callbacks (source
lines 36-45 and 62-71, identical except for the alphabet): one draw picks
the length, then one draw per character.  Returns the produced string and
the next unused draw index. -/
def seqCallback (rs : RandomSource) (k : Nat) (alphabet : String) (mi ma : Int) :
    String × Nat :=
  let strLen := (getRandomLength rs k mi ma).toNat
  (buildRandom rs alphabet (k + 1) strLen, k + 1 + strLen)

/-- Source `Number(...)` of a bare digit sequence. -/
def natOfDigits (ds : List Char) : Nat :=
  ds.foldl (fun n c => n * 10 + (c.toNat - 48)) 0

/-- JavaScript `ToNumber` of a parsed argument, in the cases expressible
without floating point: a number is itself; a quoted string coerces to its
digit value when it is a (possibly empty) digit sequence — `Number("")`
is 0 — and to NaN (modelled as `none`) otherwise.  Fractional or signed
numeric strings would need floats; they are outside every macro argument
shape the claims quantify over. -/
def argToNumber : JSArg → Option Int
  | JSArg.num n => some (n : Int)
  | JSArg.str s =>
    if s.data.all Char.isDigit then some ((natOfDigits s.data : Nat) : Int)
    else none

/-- The `str`/`num` callback applied to the parsed 2-argument list (arity
enforced by `processExtension`), following JavaScript coercion.  The range
`max - min` goes through `ToNumber` on both sides; the length is
`min + Math.floor(Math.random() * (max - min))`, where `+` is numeric
addition when `min` is a number but string concatenation when `min` is a
(quoted) string — so `$str('3','5')` concatenates `'3'` with the floored
draw into `"30"`/`"31"` and the `i < strLen` guard coerces that back to a
number, running the loop 30/31 times.  A NaN anywhere makes the guard
false from the start, giving the empty string.  The single `Math.random()`
call for the length happens in every case. -/
def seqCallbackArgs (rs : RandomSource) (k : Nat) (alphabet : String)
    (args : List JSArg) : JSValue × Nat :=
  match args with
  | [JSArg.num mi, ma2] =>
    (match argToNumber ma2 with
     | some ma =>
       let r := seqCallback rs k alphabet (mi : Int) ma
       (JSValue.str r.1, r.2)
     | none => (JSValue.str "", k + 1))
  | [JSArg.str smi, ma2] =>
    (match argToNumber (JSArg.str smi), argToNumber ma2 with
     | some mi, some ma =>
       let d := rs.draw k (ma - mi)
       let lenStr := smi ++ toString d
       let strLen : Nat :=
         if lenStr.data.all Char.isDigit then natOfDigits lenStr.data else 0
       (JSValue.str (buildRandom rs alphabet (k + 1) strLen), k + 1 + strLen)
     | _, _ => (JSValue.str "", k + 1))
  | _ => (JSValue.str "", k + 1)

/-- The `text` callback (source lines 80-82): a uniformly random element
of the `arguments` object; on an empty argument list `arguments[0]` is
`undefined`. -/
def textCallback (rs : RandomSource) (k : Nat) (args : List JSArg) : JSValue :=
  match getRandomElementList rs k args with
  | some (JSArg.str s) => JSValue.str s
  | some (JSArg.num n) => JSValue.num n
  | none => JSValue.undef

/-- The `mail` callback (source lines 91-93). -/
def mailCallback (rs : RandomSource) (k : Nat) : JSValue :=
  match getRandomElementList rs k VALID_MAILDOMAINS with
  | some s => JSValue.str s
  | none => JSValue.undef

/-- Declared arity of an extension: a fixed count or the `'var'` marker. -/
inductive Arity where
  | fixed (n : Nat)
  | variadic
deriving DecidableEq

/-- The fixed extension registry (source lines 21-95): `str` and `num`
take 2 arguments, `text` is variadic, `mail` takes 0. -/
def extensionArity (func : String) : Option Arity :=
  if func = "str" then some (Arity.fixed 2)
  else if func = "num" then some (Arity.fixed 2)
  else if func = "text" then some Arity.variadic
  else if func = "mail" then some (Arity.fixed 0)
  else none

/-- Invoke a registered extension callback. -/
def invokeExtension (rs : RandomSource) (k : Nat) (func : String)
    (args : List JSArg) : JSValue × Nat :=
  if func = "str" then seqCallbackArgs rs k VALID_CHARS args
  else if func = "num" then seqCallbackArgs rs k VALID_DIGITS args
  else if func = "text" then (textCallback rs k args, k + 1)
  else (mailCallback rs k, k + 1)

/-- Source `processExtension(func, args)` (source lines 145-158): `null` for an
unknown extension or an argument-count mismatch against a fixed arity,
otherwise the callback result. -/
def processExtension (rs : RandomSource) (k : Nat) (func : String)
    (args : List JSArg) : JSValue × Nat :=
  match extensionArity func with
  | none => (JSValue.jsNull, k)
  | some (Arity.fixed n) =>
    if args.length ≠ n then (JSValue.jsNull, k)
    else invokeExtension rs k func args
  | some Arity.variadic => invokeExtension rs k func args

/-- JavaScript `\w`: `[A-Za-z0-9_]`. -/
def isWordChar (c : Char) : Bool :=
  c.isAlpha || c.isDigit || c = '_'

/-- Attempt to match `REGEX_FUNCTION = /\$(\w+)\(([^()]*)\)/` anchored at
the head of the given character list, returning the captured identifier
and argument-string characters.  Maximal-munch on `\w+` and `[^()]*` is
exact here: giving characters back cannot make the following literal
match. -/
def matchFunctionAt (cs : List Char) : Option (List Char × List Char) :=
  match cs with
  | '$' :: rest =>
    let name := rest.takeWhile isWordChar
    if name.isEmpty then none
    else
      match rest.drop name.length with
      | '(' :: rest2 =>
        let argStr := rest2.takeWhile (fun c => c ≠ '(' && c ≠ ')')
        (match rest2.drop argStr.length with
         | ')' :: _ => some (name, argStr)
         | _ => none)
      | _ => none
  | _ => none

/-- Source `REGEX_FUNCTION.exec(result)`: the leftmost match (the regex has no
`g` flag, so `exec` always scans from the start of the string). -/
def findFunctionMatch : List Char → Option (List Char × List Char)
  | [] => none
  | c :: rest =>
    match matchFunctionAt (c :: rest) with
    | some m => some m
    | none => findFunctionMatch rest

/-- Consume the `\,?\s*` tail of `REGEX_ARG` after a captured group. -/
def dropCommaWs (cs : List Char) : List Char :=
  let cs1 := if cs.head? = some ',' then cs.tail else cs
  cs1.dropWhile (fun c => c = ' ' || c = '\t' || c = '\n' || c = '\r')

theorem dropWhile_length_le {α : Type} (p : α → Bool) (l : List α) :
    (l.dropWhile p).length ≤ l.length :=
  (List.dropWhile_suffix p).length_le

theorem dropCommaWs_length_le (cs : List Char) :
    (dropCommaWs cs).length ≤ cs.length := by
  unfold dropCommaWs
  by_cases h : cs.head? = some ','
  · rw [if_pos h]
    exact le_trans (dropWhile_length_le _ _) (by cases cs <;> simp)
  · rw [if_neg h]
    exact dropWhile_length_le _ _

/-- The `REGEX_ARG = /('[^']*'|\d+)\,?\s*/g` exec loop over the captured
argument string (source lines 177-187): scan left to right; a quoted group
(with a closing quote present) yields a string argument with all quotes
stripped (`REGEX_STR` matches, `replace(/'/g, "")`); a bare digit run is
coerced with `Number(...)`; any other character is skipped; after each
group the optional comma and trailing whitespace are consumed. -/
theorem dropCommaWs_drop_length_le (l : List Char) (n : Nat) :
    (dropCommaWs (l.drop n)).length ≤ l.length := by
  have h1 := dropCommaWs_length_le (l.drop n)
  rw [List.length_drop] at h1
  omega

def parseArgsGo : Nat → List Char → List JSArg
  | 0, _ => []
  | _, [] => []
  | fuel + 1, c :: rest =>
    if c = quoteChar then
      let inner := rest.takeWhile (fun d => d ≠ quoteChar)
      if inner.length = rest.length then
        -- no closing quote anywhere: the quoted alternative never matches
        -- at this position, so the scan moves on by one character
        parseArgsGo fuel rest
      else
        JSArg.str ⟨inner⟩ :: parseArgsGo fuel (dropCommaWs (rest.drop (inner.length + 1)))
    else if c.isDigit then
      let digits := (c :: rest).takeWhile Char.isDigit
      JSArg.num (natOfDigits digits) ::
        parseArgsGo fuel (dropCommaWs (rest.drop (digits.length - 1)))
    else parseArgsGo fuel rest

def parseArgs (cs : List Char) : List JSArg :=
  parseArgsGo cs.length cs

/-- Source `String.prototype.indexOf`: index of the first occurrence of the
needle, or -1 (the source looks up the matched text with
`result.indexOf(fText)`). -/
def strIndexOf (needle : List Char) : List Char → Int
  | [] => if needle.isPrefixOf ([] : List Char) then 0 else -1
  | c :: rest =>
    if needle.isPrefixOf (c :: rest) then 0
    else
      let r := strIndexOf needle rest
      if r = -1 then -1 else r + 1

/-- Source `replaceRange(str, start, end, substitute)` (source lines 134-136):
`str.substring(0, start) + substitute + str.substring(end)`.  Indices are
counted in characters (the strings handled here are BMP-only, where
JavaScript's UTF-16 indices agree with character counts). -/
def replaceRange (s : String) (start stop : Nat) (substitute : String) : String :=
  ⟨s.data.take start⟩ ++ substitute ++ ⟨s.data.drop stop⟩

/-- State of the `processSyntax` while loop: the working string and the
index of the next unused random draw. -/
structure ScanState where
  result : String
  k : Nat
deriving DecidableEq

/-- One iteration of the `while ((fMatch = REGEX_FUNCTION.exec(result)) !== null)`
loop (source lines 172-194): `none` when the regex no longer matches (loop
exit); otherwise parse the arguments, run `processExtension`, and splice
in the result unless it is the `null` failure marker — in which case the
string is left unchanged (and the next iteration re-scans the very same
string). -/
def processSyntaxStep (rs : RandomSource) (st : ScanState) : Option ScanState :=
  match findFunctionMatch st.result.data with
  | none => none
  | some (name, argStr) =>
    let fText : String := "$" ++ ⟨name⟩ ++ "(" ++ ⟨argStr⟩ ++ ")"
    let fIndex := (strIndexOf fText.data st.result.data).toNat
    let args := parseArgs argStr
    let pr := processExtension rs st.k ⟨name⟩ args
    if pr.1 ≠ JSValue.jsNull then
      some ⟨replaceRange st.result fIndex (fIndex + fText.length) (jsToString pr.1), pr.2⟩
    else
      some ⟨st.result, pr.2⟩

/-- Source `processSyntax(str)` as a fuel-indexed iteration of the loop body:
`some out` when the loop exits within the given number of iterations,
`none` when the fuel runs out first. -/
def processSyntaxFuel (rs : RandomSource) : Nat → ScanState → Option String
  | 0, _ => none
  | n + 1, st =>
    match processSyntaxStep rs st with
    | none => some st.result
    | some st2 => processSyntaxFuel rs n st2

/-- Source `processSyntax(str)` terminates on input `s` iff some finite number of
loop iterations suffices. -/
def processSyntaxTerminates (rs : RandomSource) (s : String) : Prop :=
  ∃ n, (processSyntaxFuel rs n ⟨s, 0⟩).isSome

/-- A loop state that steps to itself can never run out of work: no
amount of fuel makes the iteration finish. -/
theorem fixedPoint_fuel_none (rs : RandomSource) (st : ScanState)
    (h : processSyntaxStep rs st = some st) :
    ∀ n, processSyntaxFuel rs n st = none := by
  intro n
  induction n with
  | zero => rfl
  | succ n ih => simp [processSyntaxFuel, h, ih]

/-! ## Claims C5 and C10 -/

/-- Claim C5 (evaluation of the code at the failing inputs): an unknown
identifier (`$foo(1)`) or an arity mismatch (`$str(1)`, one argument for
the 2-argument `str`) makes `processExtension` return `null`, so the loop
body leaves the scan state completely unchanged — and since
`REGEX_FUNCTION` has no `g` flag, `exec` re-finds the same occurrence, so
`processSyntax` never terminates on these inputs instead of skipping the
occurrence. -/
theorem C5_nontermination :
    processSyntaxStep rsZero ⟨"$foo(1)", 0⟩ = some ⟨"$foo(1)", 0⟩ ∧
    processSyntaxStep rsZero ⟨"$str(1)", 0⟩ = some ⟨"$str(1)", 0⟩ ∧
    ¬ processSyntaxTerminates rsZero "$foo(1)" ∧
    ¬ processSyntaxTerminates rsZero "$str(1)" := by
  have h1 : processSyntaxStep rsZero ⟨"$foo(1)", 0⟩ = some ⟨"$foo(1)", 0⟩ := by
    decide
  have h2 : processSyntaxStep rsZero ⟨"$str(1)", 0⟩ = some ⟨"$str(1)", 0⟩ := by
    decide
  refine ⟨h1, h2, ?_, ?_⟩
  · rintro ⟨n, hn⟩
    rw [fixedPoint_fuel_none rsZero _ h1 n] at hn
    simp at hn
  · rintro ⟨n, hn⟩
    rw [fixedPoint_fuel_none rsZero _ h2 n] at hn
    simp at hn

/-- For every draw stream and draw index, invoking the `text` extension
with zero arguments passes the variadic arity check, indexes the empty
`arguments` object (giving `undefined`, not the `null` failure marker),
and consumes one draw. -/
theorem processExtension_text_empty (rs : RandomSource) (k : Nat) :
    processExtension rs k "text" [] = (JSValue.undef, k + 1) := by
  have harr : ∀ i : Int, jsArrGet ([] : List JSArg) i = none := by
    intro i
    simp [jsArrGet, listNth]
  simp [processExtension, extensionArity, invokeExtension, textCallback,
    getRandomElementList, harr]

/-- Claim C10 counterexample: the template `$foo(1)$text()` contains the
macro occurrence `$text()`, yet expansion never substitutes anything for
it: the unresolvable leftmost macro `$foo(1)` keeps the scan state
unchanged and is re-found forever, so `processSyntax` produces no output
at all on this template. -/
theorem C10_counterexample :
    ("$foo(1)$text()" : String) = "$foo(1)" ++ "$text()" ∧
    processSyntaxStep rsZero ⟨"$foo(1)$text()", 0⟩ =
      some ⟨"$foo(1)$text()", 0⟩ ∧
    ¬ processSyntaxTerminates rsZero "$foo(1)$text()" := by
  have h1 : ("$foo(1)$text()" : String) = "$foo(1)" ++ "$text()" := by decide
  have h2 : processSyntaxStep rsZero ⟨"$foo(1)$text()", 0⟩ =
      some ⟨"$foo(1)$text()", 0⟩ := by decide
  refine ⟨h1, h2, ?_⟩
  rintro ⟨n, hn⟩
  rw [fixedPoint_fuel_none rsZero _ h2 n] at hn
  simp at hn

/-- Claim C10 (amended): whenever the scan's leftmost regex match is a
`$text()` occurrence with an empty argument string — in particular on the
template `$text()` itself, and in any iteration of a terminating scan in
which that occurrence has become leftmost — the variadic arity check
passes, the generator returns an `undefined` element from the empty
argument list, `undefined` is not treated as the `null` failure marker,
and that iteration substitutes the literal string `undefined` for the
occurrence.  (A template whose leftmost macro is unresolvable never
reaches its `$text()` occurrence: the scan loops forever and produces no
output, refuting the original quantifier over every containing template.) -/
theorem C10_amended_expansion (rs : RandomSource) (st : ScanState)
    (h : findFunctionMatch st.result.data = some ("text".data, ([] : List Char))) :
    processExtension rs st.k "text" [] = (JSValue.undef, st.k + 1) ∧
    JSValue.undef ≠ JSValue.jsNull ∧
    processSyntaxStep rs st =
      some ⟨replaceRange st.result
              (strIndexOf ("$text()" : String).data st.result.data).toNat
              ((strIndexOf ("$text()" : String).data st.result.data).toNat + 7)
              "undefined",
            st.k + 1⟩ := by
  refine ⟨processExtension_text_empty rs st.k, by decide, ?_⟩
  unfold processSyntaxStep
  rw [h]
  have hmk : String.mk ("text".data) = "text" := rfl
  have hmk2 : String.mk ([] : List Char) = "" := rfl
  have hft : ("$" ++ "text" ++ "(" ++ "" ++ ")" : String) = "$text()" := by decide
  have hargs : parseArgs ([] : List Char) = [] := rfl
  have hlen : ("$text()" : String).length = 7 := by decide
  simp only [hmk, hmk2, hft, hargs, processExtension_text_empty rs st.k, hlen]
  simp [jsToString]

/-! ## Claim C7 -/

theorem string_data_append (a b : String) : (a ++ b).data = a.data ++ b.data := rfl

theorem string_length_append (a b : String) :
    (a ++ b).length = a.length + b.length := by
  show (a.data ++ b.data).length = a.data.length + b.data.length
  exact List.length_append _ _

/-- With a non-empty alphabet, `getRandomElement` over it always returns a
one-character string whose character is in the alphabet (the draw is in
range, so the `undefined` branch is unreachable). -/
theorem getRandomElementChars_mem (rs : RandomSource) (j : Nat) (alphabet : String)
    (h : 0 < alphabet.length) :
    ∃ c ∈ alphabet.data, getRandomElementChars rs j alphabet = String.singleton c := by
  have h0 : (0 : Int) < (alphabet.length : Int) := by exact_mod_cast h
  have hn0 := rs.draw_nonneg j (alphabet.length : Int) h0
  have hlt := rs.draw_lt j (alphabet.length : Int) h0
  have hdata : alphabet.length = alphabet.data.length := rfl
  have hlt2 : (rs.draw j (alphabet.length : Int)).toNat < alphabet.data.length := by
    omega
  obtain ⟨c, hc⟩ := listNth_lt_isSome alphabet.data _ hlt2
  refine ⟨c, listNth_mem _ _ _ hc, ?_⟩
  unfold getRandomElementChars jsArrGet
  rw [if_neg (by omega), hc]

/-- The character-appending loop produces exactly `n` characters, all from
the alphabet. -/
theorem buildRandom_props (rs : RandomSource) (alphabet : String)
    (halpha : 0 < alphabet.length) (base : Nat) : ∀ n,
    (buildRandom rs alphabet base n).length = n ∧
    ∀ c ∈ (buildRandom rs alphabet base n).data, c ∈ alphabet.data := by
  intro n
  induction n with
  | zero =>
    refine ⟨rfl, ?_⟩
    intro c hc
    simp [buildRandom] at hc
  | succ n ih =>
    obtain ⟨hl, hm⟩ := ih
    obtain ⟨c0, hc0mem, hc0eq⟩ := getRandomElementChars_mem rs (base + n) alphabet halpha
    constructor
    · rw [buildRandom, string_length_append, hl, hc0eq]
      rfl
    · intro c hc
      rw [buildRandom, string_data_append, hc0eq] at hc
      rcases List.mem_append.mp hc with hc | hc
      · exact hm c hc
      · have : c = c0 := by simpa [String.singleton] using hc
        exact this ▸ hc0mem

/-- Length selection: `min + Math.floor(Math.random() * (max - min))` lies
in `[min, max)` when `min < max` and is exactly `min` when `min = max`. -/
theorem getRandomLength_bounds (rs : RandomSource) (k mi ma : Nat) (h : mi ≤ ma) :
    mi ≤ (getRandomLength rs k (mi : Int) (ma : Int)).toNat ∧
    (mi < ma → (getRandomLength rs k (mi : Int) (ma : Int)).toNat < ma) ∧
    (mi = ma → (getRandomLength rs k (mi : Int) (ma : Int)).toNat = mi) := by
  unfold getRandomLength
  rcases Nat.lt_or_ge mi ma with hlt | hge
  · have hpos : (0 : Int) < (ma : Int) - (mi : Int) := by omega
    have h1 := rs.draw_nonneg k ((ma : Int) - (mi : Int)) hpos
    have h2 := rs.draw_lt k ((ma : Int) - (mi : Int)) hpos
    exact ⟨by omega, fun _ => by omega, fun he => by omega⟩
  · have heq : mi = ma := le_antisymm h hge
    have hz : (ma : Int) - (mi : Int) = 0 := by omega
    rw [hz, rs.draw_zero]
    exact ⟨by omega, fun hl => by omega, fun _ => by omega⟩

/-- Bounds for the shared `str`/`num` callback body over a non-empty
alphabet. -/
theorem seqCallback_bounds (rs : RandomSource) (k : Nat) (alphabet : String)
    (halpha : 0 < alphabet.length) (mi ma : Nat) (h : mi ≤ ma) :
    mi ≤ (seqCallback rs k alphabet (mi : Int) (ma : Int)).1.length ∧
    (mi < ma → (seqCallback rs k alphabet (mi : Int) (ma : Int)).1.length < ma) ∧
    (mi = ma → (seqCallback rs k alphabet (mi : Int) (ma : Int)).1.length = mi) ∧
    ∀ c ∈ (seqCallback rs k alphabet (mi : Int) (ma : Int)).1.data, c ∈ alphabet.data := by
  obtain ⟨hlen, hmem⟩ := buildRandom_props rs alphabet halpha (k + 1)
      ((getRandomLength rs k (mi : Int) (ma : Int)).toNat)
  obtain ⟨b1, b2, b3⟩ := getRandomLength_bounds rs k mi ma h
  have hfst : (seqCallback rs k alphabet (mi : Int) (ma : Int)).1 =
      buildRandom rs alphabet (k + 1)
        ((getRandomLength rs k (mi : Int) (ma : Int)).toNat) := rfl
  rw [hfst, hlen]
  exact ⟨b1, b2, b3, hmem⟩

/-- Claim C7: for natural arguments min ≤ max, the `str` generator yields
a string over `a-z` and the `num` generator a string over the decimal
digits, with length in `[min, max)` when min < max and exactly min when
min = max (the chosen length `min + floor(random * (max - min))` never
reaches max). -/
theorem C7_generator_bounds (rs : RandomSource) (k mi ma : Nat) (h : mi ≤ ma) :
    (mi ≤ (seqCallback rs k VALID_CHARS (mi : Int) (ma : Int)).1.length ∧
     (mi < ma → (seqCallback rs k VALID_CHARS (mi : Int) (ma : Int)).1.length < ma) ∧
     (mi = ma → (seqCallback rs k VALID_CHARS (mi : Int) (ma : Int)).1.length = mi) ∧
     ∀ c ∈ (seqCallback rs k VALID_CHARS (mi : Int) (ma : Int)).1.data,
       c ∈ VALID_CHARS.data) ∧
    (mi ≤ (seqCallback rs k VALID_DIGITS (mi : Int) (ma : Int)).1.length ∧
     (mi < ma → (seqCallback rs k VALID_DIGITS (mi : Int) (ma : Int)).1.length < ma) ∧
     (mi = ma → (seqCallback rs k VALID_DIGITS (mi : Int) (ma : Int)).1.length = mi) ∧
     ∀ c ∈ (seqCallback rs k VALID_DIGITS (mi : Int) (ma : Int)).1.data,
       c ∈ VALID_DIGITS.data) :=
  ⟨seqCallback_bounds rs k VALID_CHARS (by decide) mi ma h,
   seqCallback_bounds rs k VALID_DIGITS (by decide) mi ma h⟩

theorem C7_generator_bounds_witness :
    (2 : Nat) ≤ 4 ∧
    2 ≤ (seqCallback rsZero 0 VALID_CHARS ((2 : Nat) : Int) ((4 : Nat) : Int)).1.length ∧
    ((2 : Nat) < 4 →
      (seqCallback rsZero 0 VALID_CHARS ((2 : Nat) : Int) ((4 : Nat) : Int)).1.length < 4) ∧
    2 ≤ (seqCallback rsZero 0 VALID_DIGITS ((2 : Nat) : Int) ((4 : Nat) : Int)).1.length :=
  ⟨by decide, (C7_generator_bounds rsZero 0 2 4 (by decide)).1.1,
   (C7_generator_bounds rsZero 0 2 4 (by decide)).1.2.1,
   (C7_generator_bounds rsZero 0 2 4 (by decide)).2.1⟩

theorem C10_amended_expansion_witness :
    findFunctionMatch ("$text()" : String).data =
      some ("text".data, ([] : List Char)) ∧
    processSyntaxStep rsZero ⟨"$text()", 0⟩ = some ⟨"undefined", 1⟩ ∧
    processSyntaxFuel rsZero 2 ⟨"$text()", 0⟩ = some "undefined" := by
  have h : findFunctionMatch ("$text()" : String).data =
      some ("text".data, ([] : List Char)) := by decide
  have main := C10_amended_expansion rsZero ⟨"$text()", 0⟩ h
  have hstep : processSyntaxStep rsZero ⟨"$text()", 0⟩ = some ⟨"undefined", 1⟩ := by
    rw [main.2.2]; decide
  have hdone : processSyntaxStep rsZero ⟨"undefined", 1⟩ = none := by decide
  exact ⟨h, hstep, by simp [processSyntaxFuel, hstep, hdone]⟩
